import Mathlib

/-!
Verification of the PCAN bus adapter (`can/interfaces/pcan/pcan.py`).

The definitions below are a shallow embedding of the adapter: the error
decoder `_get_formatted_error`, the classic-mode `send` path, the
constructor `__init__` (timing configuration, state validation, device
initialization and receive-event registration, rendered as a trace of
device effects), the `_recv_internal` loop under both wait strategies,
the classic frame decoder, and the `state` property setter.

Device calls (GetErrorText, the initialization calls, SetValue, Read) are
modelled as explicit parameters or as entries of an effect trace; machine
integers are `Nat` (all involved quantities are unsigned in the source);
the float timestamp arithmetic is modelled over `ℚ`.
-/

namespace Pcan

/-! ### Constants from the `.basic` bindings

Modelled from the spec: the module does `from .basic import *`; the
`basic` bindings file is not under `src/`.  The values below are the PCAN
Basic API constants (error-status bits, message-type flag bits, BTR0BTR1
baud-rate register values) that the adapter reads through `.value`; each
claim below depends only on the adapter's own logic over these masks. -/

def PCAN_ERROR_OK : Nat := 0x00000

def PCAN_ERROR_QRCVEMPTY : Nat := 0x00020

def PCAN_ERROR_BUSLIGHT : Nat := 0x00004

def PCAN_ERROR_BUSHEAVY : Nat := 0x00008

def PCAN_MESSAGE_STANDARD : Nat := 0x00

def PCAN_MESSAGE_RTR : Nat := 0x01

def PCAN_MESSAGE_EXTENDED : Nat := 0x02

def PCAN_MESSAGE_FD : Nat := 0x04

def PCAN_MESSAGE_BRS : Nat := 0x08

def PCAN_MESSAGE_ESI : Nat := 0x10

def PCAN_MESSAGE_ERRFRAME : Nat := 0x40

def PCAN_BAUD_1M : Nat := 0x0014

def PCAN_BAUD_800K : Nat := 0x0016

def PCAN_BAUD_500K : Nat := 0x001C

def PCAN_BAUD_250K : Nat := 0x011C

def PCAN_BAUD_125K : Nat := 0x031C

def PCAN_BAUD_100K : Nat := 0x432F

def PCAN_BAUD_95K : Nat := 0xC34E

def PCAN_BAUD_83K : Nat := 0x852B

def PCAN_BAUD_50K : Nat := 0x472F

def PCAN_BAUD_47K : Nat := 0x1414

def PCAN_BAUD_33K : Nat := 0x8B2F

def PCAN_BAUD_20K : Nat := 0x532F

def PCAN_BAUD_10K : Nat := 0x672F

def PCAN_BAUD_5K : Nat := 0x7F7F

/-! ### Python integer bit operations

The decoder's `bits` generator runs `mask = ~n + 1; masked_value = n & mask`
on Python ints, which are arbitrary-precision two's-complement integers.
`pyNot` and `pyAnd` embed the Python `~` and `&` operators on `Int`;
they are proved equal to Mathlib's textbook two's-complement `Int.lnot`
and `Int.land` below. -/

/-- Python bitwise complement `~a` on an int: `~a = -a - 1`. -/
def pyNot (a : Int) : Int := -a - 1

/-- Python bitwise `a & b` on ints (two's complement).  On mixed signs the
nonnegative operand is masked by the complement of the magnitude bits of the
negative one: `m & not k = m ^^^ (m &&& k)` bitwise. -/
def pyAnd : Int → Int → Int
  | .ofNat m, .ofNat k => .ofNat (m &&& k)
  | .ofNat m, .negSucc k => .ofNat (m ^^^ (m &&& k))
  | .negSucc m, .ofNat k => .ofNat (k ^^^ (k &&& m))
  | .negSucc m, .negSucc k => .negSucc (m ||| k)

/-- Loop body of the decoder's `bits` generator: the Python expression
`n & (~n + 1)`, which isolates the lowest set bit of `n`. -/
def pyLowBit (n : Nat) : Nat := (pyAnd (Int.ofNat n) (pyNot (Int.ofNat n) + 1)).toNat

/-- Iteration of the `bits` generator: while `n` is nonzero, yield the
masked lowest set bit and toggle it off (`n ^= masked_value`).  The first
argument is iteration fuel; since each pass strictly decreases `n`,
`n` itself is always enough fuel (proved below). -/
def bitsAux : Nat → Nat → List Nat
  | _, 0 => []
  | 0, _ + 1 => []
  | fuel + 1, n + 1 =>
    let mv := pyLowBit (n + 1)
    mv :: bitsAux fuel ((n + 1) ^^^ mv)

/-- The decoder's `bits(n)` generator, materialized as the list of yielded
masked bits. -/
def bits (n : Nat) : List Nat := bitsAux n n

/-! ### The error decoder `_get_formatted_error` -/

/-- Python `sep.join(strings)`. -/
def pyJoin (sep : String) : List String → String
  | [] => ""
  | [s] => s
  | s :: rest => s ++ sep ++ pyJoin sep rest

/-- Python `"{0:X}".format(n)`: uppercase hexadecimal, no leading zeros. -/
def toHexUpper (n : Nat) : String :=
  String.mk ((Nat.toDigits 16 n).map Char.toUpper)

/-- Placeholder text built when `GetErrorText` fails for an individual bit:
the format string interpolates `error`, the full composite code, in
uppercase hex. -/
def placeholderText (error : Nat) : String :=
  "An error occurred. Error-code\x27s text (" ++ toHexUpper error ++
    "h) couldn\x27t be retrieved"

/-- Embedding of `PcanBus._get_formatted_error`.  `gett` is the device's
`GetErrorText` capability (the language argument, always `0`, is dropped;
the returned buffer is modelled as the already-decoded string). -/
def getFormattedError (gett : Nat → Nat × String) (error : Nat) : String :=
  let sts := gett error
  if sts.1 ≠ PCAN_ERROR_OK then
    pyJoin ("\n") ((bits error).map (fun b =>
      let stsB := gett b
      if stsB.1 ≠ PCAN_ERROR_OK then placeholderText error else stsB.2))
  else sts.2

/-! ### The classic-mode send path -/

/-- Logical CAN message (`can.Message`) as consumed by `send`. -/
structure CanMessage where
  arbitration_id : Nat
  is_extended_id : Bool
  is_remote_frame : Bool
  is_error_frame : Bool
  is_fd : Bool
  bitrate_switch : Bool
  error_state_indicator : Bool
  dlc : Nat
  data : List Nat
  deriving DecidableEq

/-- Wire record `TPCANMsg` filled in by the classic branch of `send`. -/
structure TPCANMsg where
  ID : Nat
  LEN : Nat
  MSGTYPE : Nat
  DATA : List Nat
  deriving DecidableEq

/-- Modelled from the spec: scalar values on the send path.  The
`PCAN_MESSAGE_*` flag constants of the missing `.basic` module are ctypes
unsigned bytes (`cval`); extracting `.value` from one yields a plain
Python int (`pint`). -/
inductive PyScalar where
  | pint (n : Nat)
  | cval (n : Nat)
  deriving DecidableEq

/-- Python attribute access `x.value`: a ctypes scalar carries the
attribute; a plain int defines no attribute `value`, so the access raises
`AttributeError` (modelled as `none`). -/
def PyScalar.value : PyScalar → Option Nat
  | .pint _ => none
  | .cval n => some n

/-- Exceptions raised by the embedded operations. -/
inductive PyError where
  | attributeError (text : String)
  | pcanError (text : String)
  | argumentError (text : String)
  deriving DecidableEq

/-- Message text of the `AttributeError` raised by `msgType.value` on a
plain int. -/
def attrErrText : String := "\x27int\x27 object has no attribute \x27value\x27"

/-- Lines 335-349 of `send`: the message-type bitmask.  The base type is
Extended or Standard by the extended-id flag; each set flag ORs in its
bit.  Each constant is read through `.value`, so the accumulator is a
plain Python int. -/
def sendMsgType (msg : CanMessage) : Nat :=
  let m := if msg.is_extended_id then PCAN_MESSAGE_EXTENDED else PCAN_MESSAGE_STANDARD
  let m := if msg.is_remote_frame then m ||| PCAN_MESSAGE_RTR else m
  let m := if msg.is_error_frame then m ||| PCAN_MESSAGE_ERRFRAME else m
  let m := if msg.is_fd then m ||| PCAN_MESSAGE_FD else m
  let m := if msg.bitrate_switch then m ||| PCAN_MESSAGE_BRS else m
  if msg.error_state_indicator then m ||| PCAN_MESSAGE_ESI else m

/-- Classic-mode (fd = False) branch of `PcanBus.send`, up to the `Write`
call: builds the `TPCANMsg` that is handed to the device, or the exception
raised while building it.  In the remote-frame branch the source
re-assigns `CANMsg.MSGTYPE = msgType.value | PCAN_MESSAGE_RTR.value`,
an attribute access on the plain int `msgType`; in the data branch it
copies `msg.data[0:LEN]` into the zero-initialized 8-byte buffer. -/
def sendClassic (msg : CanMessage) : Except PyError TPCANMsg :=
  let msgType := sendMsgType msg
  if msg.is_remote_frame then
    match (PyScalar.pint msgType).value with
    | some v =>
      .ok { ID := msg.arbitration_id, LEN := msg.dlc, MSGTYPE := v ||| PCAN_MESSAGE_RTR,
            DATA := List.replicate 8 0 }
    | none => .error (.attributeError attrErrText)
  else
    .ok { ID := msg.arbitration_id, LEN := msg.dlc, MSGTYPE := msgType,
          DATA := msg.data.take msg.dlc ++ List.replicate (8 - msg.dlc) 0 }

/-! ### Bus state and the `state` property setter -/

/-- Modelled from the spec: the `can.bus.BusState` enumeration (not under
`src/`).  The spec's data model is {Active, Passive}; the library's
enumeration also carries an `ERROR` member, which the setter can receive. -/
inductive BusState where
  | active
  | passive
  | error
  deriving DecidableEq

/-- Device effects performed by `__init__` and by the `state` setter, in
call order.  `initBaud` stands for `Initialize` (the fixed `hwtype`,
`ioport`, `interrupt` arguments of the non-plug-and-play path are
constants and are omitted); `initFD` for `InitializeFD`; `setRecvEvent`
for `SetValue(PCAN_RECEIVE_EVENT, event)`; `setListenOnly b` for
`SetValue(PCAN_LISTEN_ONLY, on/off)`; the two `warn` entries are the
warning-level log diagnostics. -/
inductive Effect where
  | setListenOnly (enabled : Bool)
  | warnUnknownBitrate
  | warnDeprecatedTiming
  | initBaud (baud : Nat)
  | initFD (bitrateStr : String)
  | setRecvEvent
  deriving DecidableEq

/-- Embedding of the `PcanBus.state` property setter: the `_state` field
is assigned unconditionally, then the listen-only device parameter is
pushed only for `ACTIVE` (off) or `PASSIVE` (on); for any other value
nothing is pushed.  Returns the new `_state` value and the device calls
made. -/
def stateSetter (new_state : BusState) : BusState × List Effect :=
  if new_state = BusState.active then (new_state, [Effect.setListenOnly false])
  else if new_state = BusState.passive then (new_state, [Effect.setListenOnly true])
  else (new_state, [])

/-! ### Timing configuration and `__init__` -/

/-- Modelled from the spec: the fields of a `can.BitTiming` value that the
adapter reads (clock frequency, prescaler, segments, jump width for the
FD path; the BTR0/BTR1 register bytes for the classic path). -/
structure BitTimingSpec where
  f_clock : Nat
  brp : Nat
  tseg1 : Nat
  tseg2 : Nat
  sjw : Nat
  btr0 : Nat
  btr1 : Nat
  deriving DecidableEq

/-- Legacy keyword timing parameters: present when `"nom_tseg1" in kwargs`;
`f_clock` / `f_clock_mhz` are each included only if passed. -/
structure LegacyTiming where
  f_clock : Option Nat
  f_clock_mhz : Option Nat
  nom_brp : Nat
  nom_tseg1 : Nat
  nom_tseg2 : Nat
  nom_sjw : Nat
  data_brp : Nat
  data_tseg1 : Nat
  data_tseg2 : Nat
  data_sjw : Nat
  deriving DecidableEq

/-- The `params` dict built from explicit `timing` and `data_timing`
arguments, in insertion order. -/
def fdParamsExplicit (t d : BitTimingSpec) : List (String × Nat) :=
  [("f_clock", t.f_clock), ("nom_brp", t.brp), ("nom_tseg1", t.tseg1),
   ("nom_tseg2", t.tseg2), ("nom_sjw", t.sjw), ("data_brp", d.brp),
   ("data_tseg1", d.tseg1), ("data_tseg2", d.tseg2), ("data_sjw", d.sjw)]

/-- The `params` dict built from legacy keyword arguments, in insertion
order. -/
def fdParamsLegacy (l : LegacyTiming) : List (String × Nat) :=
  (match l.f_clock with | some v => [("f_clock", v)] | none => []) ++
  (match l.f_clock_mhz with | some v => [("f_clock_mhz", v)] | none => []) ++
  [("nom_brp", l.nom_brp), ("nom_tseg1", l.nom_tseg1), ("nom_tseg2", l.nom_tseg2),
   ("nom_sjw", l.nom_sjw), ("data_brp", l.data_brp), ("data_tseg1", l.data_tseg1),
   ("data_tseg2", l.data_tseg2), ("data_sjw", l.data_sjw)]

/-- The FD bit-rate string: `",".join(f"{key}={val}" ...)`. -/
def fdBitrateString (ps : List (String × Nat)) : String :=
  pyJoin (",") (ps.map (fun p => p.1 ++ "=" ++ toString p.2))

/-- The module-level `pcan_bitrate_objs` table, bitrate to BTR0BTR1 value. -/
def pcanBitrateObjs : List (Nat × Nat) :=
  [(1000000, PCAN_BAUD_1M), (800000, PCAN_BAUD_800K), (500000, PCAN_BAUD_500K),
   (250000, PCAN_BAUD_250K), (125000, PCAN_BAUD_125K), (100000, PCAN_BAUD_100K),
   (95000, PCAN_BAUD_95K), (83000, PCAN_BAUD_83K), (50000, PCAN_BAUD_50K),
   (47000, PCAN_BAUD_47K), (33000, PCAN_BAUD_33K), (20000, PCAN_BAUD_20K),
   (10000, PCAN_BAUD_10K), (5000, PCAN_BAUD_5K)]

/-- Classic-mode bit-rate selection (lines 159-165): explicit timing packs
`btr0 << 8 | btr1` into the 16-bit `TPCANBaudrate`; otherwise the bitrate
is looked up in the table; an unknown bitrate falls back to
`PCAN_BAUD_500K` with a warning (second component: warning emitted). -/
def classicBitrate (timing : Option BitTimingSpec) (bitrate : Nat) : Nat × Bool :=
  match timing with
  | some t => ((t.btr0 <<< 8 ||| t.btr1) % 0x10000, false)
  | none =>
    match pcanBitrateObjs.lookup bitrate with
    | some b => (b, false)
    | none => (PCAN_BAUD_500K, true)

/-- Status codes the device returns to `__init__`: the result of the
initialization call, the result of the receive-event `SetValue`, and the
`GetErrorText` capability used to format failures. -/
structure DevResponses where
  gett : Nat → Nat × String
  initResult : Nat
  setEventResult : Nat

/-- Arguments of `PcanBus.__init__` relevant to its control flow
(`channel` only selects the handle and is omitted).  `legacy = some l`
models `"nom_tseg1" in kwargs` with companions `l`. -/
structure PcanInitArgs where
  state : BusState
  bitrate : Nat
  timing : Option BitTimingSpec
  data_timing : Option BitTimingSpec
  fd : Bool
  legacy : Option LegacyTiming

/-- Lines 170-181 of `__init__`: raise `PcanError` if the initialization
call did not report success; otherwise, when the platform has events,
create the receive event and register it with `SetValue`, raising
`PcanError` if that fails.  `es` is the effect trace accumulated so far
(the initialization call included). -/
def afterInit (hasEvents : Bool) (dev : DevResponses) (es : List Effect)
    (st : BusState) : List Effect × Except PyError BusState :=
  if dev.initResult ≠ PCAN_ERROR_OK then
    (es, .error (.pcanError (getFormattedError dev.gett dev.initResult)))
  else if hasEvents then
    if dev.setEventResult ≠ PCAN_ERROR_OK then
      (es ++ [Effect.setRecvEvent],
       .error (.pcanError (getFormattedError dev.gett dev.setEventResult)))
    else (es ++ [Effect.setRecvEvent], .ok st)
  else (es, .ok st)

/-- Embedding of `PcanBus.__init__`: validates the state (the valid case
runs the `state` setter, pushing listen-only), builds the FD parameter
string or the classic baud value, performs the initialization call and
the optional event registration.  Returns the ordered device-effect trace
together with the normal result (the accepted state) or the exception
raised. -/
def pcanInit (hasEvents : Bool) (dev : DevResponses) (a : PcanInitArgs) :
    List Effect × Except PyError BusState :=
  if a.state = BusState.active ∨ a.state = BusState.passive then
    let es0 := (stateSetter a.state).2
    if a.fd then
      match a.timing, a.data_timing with
      | some t, some d =>
        afterInit hasEvents dev
          (es0 ++ [Effect.initFD (fdBitrateString (fdParamsExplicit t d))]) a.state
      | _, _ =>
        match a.legacy with
        | some l =>
          afterInit hasEvents dev
            (es0 ++ [Effect.warnDeprecatedTiming,
              Effect.initFD (fdBitrateString (fdParamsLegacy l))]) a.state
        | none =>
          (es0, .error (.argumentError ("timing and data_timing arguments missing")))
    else
      let pb := classicBitrate a.timing a.bitrate
      afterInit hasEvents dev
        (es0 ++ (if pb.2 then [Effect.warnUnknownBitrate] else []) ++
          [Effect.initBaud pb.1]) a.state
  else ([], .error (.argumentError ("BusState must be Active or Passive")))

/-! ### Receive: wait strategies and the classic frame decoder -/

/-- The `TPCANTimestamp` struct of a classic read: milliseconds, overflow
counter of the millisecond field, microseconds. -/
structure TPCANTimestamp where
  millis : Nat
  millis_overflow : Nat
  micros : Nat
  deriving DecidableEq

/-- Logical received message (`can.Message` as built by `_recv_internal`).
The float timestamp is modelled over `ℚ`. -/
structure RxMessage where
  timestamp : ℚ
  arbitration_id : Nat
  is_extended_id : Bool
  is_remote_frame : Bool
  is_error_frame : Bool
  is_fd : Bool
  bitrate_switch : Bool
  error_state_indicator : Bool
  dlc : Nat
  data : List Nat
  deriving DecidableEq

/-- Classic-mode decoding of a successful read (lines 288-330): each flag
tests its bit in `MSGTYPE`; `dlc` is the wire `LEN` field directly; the
timestamp is `boottimeEpoch + (micros + 1000*millis +
0x100000000*1000*millis_overflow) / (1000.0*1000.0)`; the payload is the
first `dlc` bytes of the data buffer. -/
def decodeClassic (epoch : ℚ) (m : TPCANMsg) (ts : TPCANTimestamp) : RxMessage :=
  { timestamp := epoch +
      (((ts.micros : ℚ) + 1000 * (ts.millis : ℚ) +
        0x100000000 * 1000 * (ts.millis_overflow : ℚ)) / (1000 * 1000)),
    arbitration_id := m.ID,
    is_extended_id := m.MSGTYPE &&& PCAN_MESSAGE_EXTENDED = PCAN_MESSAGE_EXTENDED,
    is_remote_frame := m.MSGTYPE &&& PCAN_MESSAGE_RTR = PCAN_MESSAGE_RTR,
    is_error_frame := m.MSGTYPE &&& PCAN_MESSAGE_ERRFRAME = PCAN_MESSAGE_ERRFRAME,
    is_fd := m.MSGTYPE &&& PCAN_MESSAGE_FD = PCAN_MESSAGE_FD,
    bitrate_switch := m.MSGTYPE &&& PCAN_MESSAGE_BRS = PCAN_MESSAGE_BRS,
    error_state_indicator := m.MSGTYPE &&& PCAN_MESSAGE_ESI = PCAN_MESSAGE_ESI,
    dlc := m.LEN,
    data := m.DATA.take m.LEN }

/-- One result of the device `Read` call: the status and, with it, the
message struct and timestamp struct (meaningful when the status is OK). -/
structure ReadRes where
  status : Nat
  msg : TPCANMsg
  ts : TPCANTimestamp

/-- Result of one `_recv_internal` call: the "no frame" return
`(None, False)`, a decoded frame `(rx_msg, False)`, or a raised
`PcanError`. -/
inductive RecvOutcome where
  | noFrame
  | frame (m : RxMessage)
  | raised (text : String)
  deriving DecidableEq

/-- Dispatch on one read result inside the `_recv_internal` loop (lines
266-281): queue-empty defers to the wait strategy; a status with the
bus-light or bus-heavy bit set logs the decoded diagnostic and returns no
frame; any other non-OK status raises; OK proceeds to decode. -/
inductive StepRes where
  | empty
  | done (out : RecvOutcome × List String)
  deriving DecidableEq

/-- One read attempt of `_recv_internal` (classic mode): reads, then
dispatches on the status as in lines 266-281.  The second component of a
`done` outcome is the list of warning-level log messages emitted. -/
def recvReadStep (gett : Nat → Nat × String) (epoch : ℚ) (r : ReadRes) : StepRes :=
  if r.status = PCAN_ERROR_QRCVEMPTY then .empty
  else if r.status &&& (PCAN_ERROR_BUSLIGHT ||| PCAN_ERROR_BUSHEAVY) ≠ 0 then
    .done (.noFrame, [getFormattedError gett r.status])
  else if r.status ≠ PCAN_ERROR_OK then
    .done (.raised (getFormattedError gett r.status), [])
  else .done (.frame (decodeClassic epoch r.msg r.ts), [])

/-- Poll-based wait strategy (no event support, finite timeout): the
deadline `end_time = perf_counter() + timeout` is precomputed; each
empty read sleeps 1 ms and retries until the clock reaches the deadline.
Time is discretized by the 1 ms sleeps: `remaining` is the number of
sleeps left before `perf_counter() >= end_time`, and `k` indexes the
stream of read results. -/
def recvPollAux (gett : Nat → Nat × String) (epoch : ℚ) (reads : Nat → ReadRes) :
    Nat → Nat → RecvOutcome × List String
  | 0, k =>
    match recvReadStep gett epoch (reads k) with
    | .empty => (.noFrame, [])
    | .done out => out
  | rem + 1, k =>
    match recvReadStep gett epoch (reads k) with
    | .empty => recvPollAux gett epoch reads rem (k + 1)
    | .done out => out

/-- `_recv_internal` under the poll strategy, from the first read. -/
def recvPoll (gett : Nat → Nat × String) (epoch : ℚ) (reads : Nat → ReadRes)
    (deadline : Nat) : RecvOutcome × List String :=
  recvPollAux gett epoch reads deadline 0

/-- Event-based wait strategy: each empty read waits on the registered
event with the millisecond timeout; a wait that returns anything other
than `WAIT_OBJECT_0` (timeout expiry or failure) returns no frame, a
signalled wait retries the read.  `waits k` tells whether the `k`-th wait
returned `WAIT_OBJECT_0`; `fuel` bounds the number of reads modelled
(`none` means the loop was still running after `fuel` reads). -/
def recvEventAux (gett : Nat → Nat × String) (epoch : ℚ) (reads : Nat → ReadRes)
    (waits : Nat → Bool) : Nat → Nat → Option (RecvOutcome × List String)
  | 0, _ => none
  | fuel + 1, k =>
    match recvReadStep gett epoch (reads k) with
    | .empty =>
      if waits k then recvEventAux gett epoch reads waits fuel (k + 1)
      else some (.noFrame, [])
    | .done out => some out

/-! ### Concrete inputs used by witnesses and counterexamples -/

/-- A `GetErrorText` capability that fails on every code. -/
def gettFail : Nat → Nat × String := fun _ => (PCAN_ERROR_BUSHEAVY, "")

/-- A `GetErrorText` capability that fails on composite codes and renders
a single bit as `bit:<hex>`. -/
def gettPerBit : Nat → Nat × String := fun n =>
  if n = 1 ∨ n = 2 then (PCAN_ERROR_OK, "bit:" ++ toHexUpper n) else (PCAN_ERROR_BUSHEAVY, "")

/-- A device whose calls all succeed. -/
def devOK : DevResponses :=
  { gett := fun _ => (PCAN_ERROR_OK, ""), initResult := PCAN_ERROR_OK,
    setEventResult := PCAN_ERROR_OK }

/-- An arbitrary explicit bit-timing value. -/
def timingEx : BitTimingSpec :=
  { f_clock := 80000000, brp := 10, tseg1 := 12, tseg2 := 3, sjw := 1,
    btr0 := 0, btr1 := 0x1C }

/-- FD open with both timing structures supplied. -/
def argsFDTimed : PcanInitArgs :=
  { state := BusState.active, bitrate := 500000, timing := some timingEx,
    data_timing := some timingEx, fd := true, legacy := none }

/-- FD open with no timing structures and no legacy keyword parameters. -/
def argsFDBare : PcanInitArgs :=
  { state := BusState.active, bitrate := 500000, timing := none,
    data_timing := none, fd := true, legacy := none }

/-- Classic open with an unknown bitrate and no explicit timing. -/
def argsUnknownRate : PcanInitArgs :=
  { state := BusState.active, bitrate := 1, timing := none,
    data_timing := none, fd := false, legacy := none }

/-- Classic open requesting 500 kbit/s with no explicit timing. -/
def args500K : PcanInitArgs :=
  { state := BusState.active, bitrate := 500000, timing := none,
    data_timing := none, fd := false, legacy := none }

/-- Open with the state argument set to the `ERROR` member. -/
def argsStateErr : PcanInitArgs :=
  { state := BusState.error, bitrate := 500000, timing := none,
    data_timing := none, fd := false, legacy := none }

/-- A standard-ID remote frame with no payload. -/
def remoteFrameEx : CanMessage :=
  { arbitration_id := 0x123, is_extended_id := false, is_remote_frame := true,
    is_error_frame := false, is_fd := false, bitrate_switch := false,
    error_state_indicator := false, dlc := 0, data := [] }

/-- A wire message with standard ID and three data bytes. -/
def wireMsgEx : TPCANMsg :=
  { ID := 0x123, LEN := 3, MSGTYPE := PCAN_MESSAGE_STANDARD,
    DATA := [1, 2, 3, 0, 0, 0, 0, 0] }

/-- A wire timestamp. -/
def wireTsEx : TPCANTimestamp := { millis := 2, millis_overflow := 0, micros := 500 }

/-- A read stream that always reports an empty queue. -/
def readsEmpty : Nat → ReadRes :=
  fun _ => { status := PCAN_ERROR_QRCVEMPTY, msg := wireMsgEx, ts := wireTsEx }

/-- A read stream whose every read reports bus-heavy. -/
def readsBusHeavy : Nat → ReadRes :=
  fun _ => { status := PCAN_ERROR_BUSHEAVY, msg := wireMsgEx, ts := wireTsEx }

/-- A read stream whose every read succeeds with the example frame. -/
def readsFrame : Nat → ReadRes :=
  fun _ => { status := PCAN_ERROR_OK, msg := wireMsgEx, ts := wireTsEx }

/-- A wait oracle whose first wait already expires. -/
def waitsExpire : Nat → Bool := fun _ => false

/-! ### Sanity: the embedded Python operators agree with the textbook
two's-complement operations -/

theorem pyNot_eq_lnot (a : Int) : pyNot a = Int.lnot a := by
  cases a with
  | ofNat m =>
    rw [Int.lnot, Int.negSucc_eq, pyNot]
    simp only [Int.ofNat_eq_coe]
    ring
  | negSucc m =>
    rw [Int.lnot, pyNot, Int.negSucc_eq]
    ring

theorem xor_land_eq_ldiff (m k : Nat) : m ^^^ (m &&& k) = Nat.ldiff m k := by
  apply Nat.eq_of_testBit_eq
  intro i
  rw [Nat.testBit_xor, Nat.testBit_land, Nat.testBit_ldiff]
  cases m.testBit i <;> cases k.testBit i <;> rfl

theorem pyAnd_eq_land (a b : Int) : pyAnd a b = Int.land a b := by
  cases a <;> cases b <;> simp [pyAnd, Int.land, xor_land_eq_ldiff]

/-! ### The lowest-set-bit mask -/

theorem pyLowBit_eq (n : Nat) (h : 0 < n) : pyLowBit n = n ^^^ (n &&& (n - 1)) := by
  cases n with
  | zero => omega
  | succ k =>
    have h1 : pyNot (Int.ofNat (k + 1)) + 1 = Int.negSucc k := by
      rw [pyNot, Int.negSucc_eq]
      simp only [Int.ofNat_eq_coe]
      push_cast
      ring
    simp only [pyLowBit, h1]
    rfl

theorem testBit_two_mul_zero (a : Nat) : (2 * a).testBit 0 = false := by
  simp [Nat.testBit_zero, Nat.mul_mod_right]

theorem testBit_two_mul_succ (a i : Nat) : (2 * a).testBit (i + 1) = a.testBit i := by
  rw [Nat.testBit_add_one]
  congr 1
  omega

theorem testBit_two_mul_add_one_zero (a : Nat) : (2 * a + 1).testBit 0 = true := by
  simp [Nat.testBit_zero]
  omega

theorem testBit_two_mul_add_one_succ (a i : Nat) :
    (2 * a + 1).testBit (i + 1) = a.testBit i := by
  rw [Nat.testBit_add_one]
  congr 1
  omega

theorem testBit_one_succ (j : Nat) : (1 : Nat).testBit (j + 1) = false := by
  rw [Nat.testBit_add_one]
  simp

theorem land_odd_pred (a : Nat) : (2 * a + 1) &&& (2 * a) = 2 * a := by
  apply Nat.eq_of_testBit_eq
  intro i
  cases i with
  | zero =>
    rw [Nat.testBit_land, testBit_two_mul_add_one_zero, testBit_two_mul_zero]
    rfl
  | succ j =>
    rw [Nat.testBit_land, testBit_two_mul_add_one_succ, testBit_two_mul_succ]
    cases a.testBit j <;> rfl

theorem xor_odd_pred (a : Nat) : (2 * a + 1) ^^^ (2 * a) = 1 := by
  apply Nat.eq_of_testBit_eq
  intro i
  cases i with
  | zero =>
    rw [Nat.testBit_xor, testBit_two_mul_add_one_zero, testBit_two_mul_zero]
    rfl
  | succ j =>
    rw [Nat.testBit_xor, testBit_two_mul_add_one_succ, testBit_two_mul_succ,
      testBit_one_succ]
    cases a.testBit j <;> rfl

theorem land_even_pred (a : Nat) (h : 0 < a) :
    (2 * a) &&& (2 * a - 1) = 2 * (a &&& (a - 1)) := by
  have h2 : 2 * a - 1 = 2 * (a - 1) + 1 := by omega
  rw [h2]
  apply Nat.eq_of_testBit_eq
  intro i
  cases i with
  | zero =>
    rw [Nat.testBit_land, testBit_two_mul_zero, testBit_two_mul_add_one_zero,
      testBit_two_mul_zero]
    rfl
  | succ j =>
    rw [Nat.testBit_land, testBit_two_mul_succ, testBit_two_mul_add_one_succ,
      testBit_two_mul_succ, Nat.testBit_land]

theorem xor_two_mul (x y : Nat) : (2 * x) ^^^ (2 * y) = 2 * (x ^^^ y) := by
  apply Nat.eq_of_testBit_eq
  intro i
  cases i with
  | zero =>
    rw [Nat.testBit_xor, testBit_two_mul_zero, testBit_two_mul_zero,
      testBit_two_mul_zero]
    rfl
  | succ j =>
    rw [Nat.testBit_xor, testBit_two_mul_succ, testBit_two_mul_succ,
      testBit_two_mul_succ, Nat.testBit_xor]

theorem pyLowBit_rec_odd (a : Nat) : pyLowBit (2 * a + 1) = 1 := by
  have h := pyLowBit_eq (2 * a + 1) (by omega)
  have h2 : 2 * a + 1 - 1 = 2 * a := by omega
  rw [h, h2, land_odd_pred, xor_odd_pred]

theorem pyLowBit_rec_even (a : Nat) (h : 0 < a) :
    pyLowBit (2 * a) = 2 * pyLowBit a := by
  rw [pyLowBit_eq (2 * a) (by omega), land_even_pred a h, xor_two_mul,
    pyLowBit_eq a h]

theorem pyLowBit_spec : ∀ n : Nat, 0 < n →
    ∃ j, pyLowBit n = 2 ^ j ∧ n.testBit j = true ∧ ∀ i, i < j → n.testBit i = false := by
  intro n
  induction n using Nat.strong_induction_on with
  | _ n ih =>
    intro h
    rcases Nat.even_or_odd n with he | ho
    · obtain ⟨a, ha⟩ := he
      have hn : n = 2 * a := by omega
      subst hn
      have ha0 : 0 < a := by omega
      obtain ⟨j, hj1, hj2, hj3⟩ := ih a (by omega) ha0
      refine ⟨j + 1, ?_, ?_, ?_⟩
      · rw [pyLowBit_rec_even a ha0, hj1]
        ring
      · rw [testBit_two_mul_succ]
        exact hj2
      · intro i hi
        cases i with
        | zero => exact testBit_two_mul_zero a
        | succ m =>
          rw [testBit_two_mul_succ]
          exact hj3 m (by omega)
    · obtain ⟨a, ha⟩ := ho
      subst ha
      exact ⟨0, pyLowBit_rec_odd a, testBit_two_mul_add_one_zero a, by omega⟩

theorem xor_pyLowBit_lt (n : Nat) (h : 0 < n) : n ^^^ pyLowBit n < n := by
  obtain ⟨j, hj1, hj2, hj3⟩ := pyLowBit_spec n h
  apply Nat.lt_of_testBit j
  · rw [Nat.testBit_xor, hj1, hj2, Nat.testBit_two_pow_self]
    rfl
  · exact hj2
  · intro k hk
    rw [Nat.testBit_xor, hj1, Nat.testBit_two_pow_of_ne (by omega)]
    cases n.testBit k <;> rfl

/-! ### Full characterization of the `bits` generator -/

theorem bitsAux_sound : ∀ n fuel, n ≤ fuel →
    (∀ b, b ∈ bitsAux fuel n ↔ ∃ j, b = 2 ^ j ∧ n.testBit j = true) ∧
      List.Chain' (· < ·) (bitsAux fuel n) := by
  intro n
  induction n using Nat.strong_induction_on with
  | _ n ih =>
    intro fuel hfuel
    cases n with
    | zero =>
      cases fuel <;> simp [bitsAux, Nat.zero_testBit]
    | succ m =>
      cases fuel with
      | zero => omega
      | succ f =>
        have hpos : 0 < m + 1 := by omega
        obtain ⟨j, hj1, hj2, hj3⟩ := pyLowBit_spec (m + 1) hpos
        have hlt := xor_pyLowBit_lt (m + 1) hpos
        have hle : (m + 1) ^^^ pyLowBit (m + 1) ≤ f := by omega
        obtain ⟨ihm, ihc⟩ := ih ((m + 1) ^^^ pyLowBit (m + 1)) hlt f hle
        have hunf : bitsAux (f + 1) (m + 1) =
            pyLowBit (m + 1) :: bitsAux f ((m + 1) ^^^ pyLowBit (m + 1)) := rfl
        have hbit : ∀ i, ((m + 1) ^^^ pyLowBit (m + 1)).testBit i =
            if i = j then false else (m + 1).testBit i := by
          intro i
          rw [Nat.testBit_xor, hj1]
          by_cases hij : i = j
          · subst hij
            rw [Nat.testBit_two_pow_self, hj2, if_pos rfl]
            rfl
          · rw [Nat.testBit_two_pow_of_ne (fun hji => hij hji.symm), if_neg hij]
            cases (m + 1).testBit i <;> rfl
        constructor
        · intro b
          rw [hunf, List.mem_cons]
          constructor
          · rintro (rfl | hb)
            · exact ⟨j, hj1, hj2⟩
            · obtain ⟨i, rfl, hti⟩ := (ihm b).1 hb
              have hij : i ≠ j := by
                intro hij
                rw [hbit i, if_pos hij] at hti
                exact Bool.false_ne_true hti
              rw [hbit i, if_neg hij] at hti
              exact ⟨i, rfl, hti⟩
          · rintro ⟨i, rfl, hti⟩
            by_cases hij : i = j
            · subst hij
              exact Or.inl hj1.symm
            · refine Or.inr ((ihm (2 ^ i)).2 ⟨i, rfl, ?_⟩)
              rw [hbit i, if_neg hij]
              exact hti
        · rw [hunf]
          rw [List.chain'_cons']
          refine ⟨?_, ihc⟩
          intro y hy
          have hy2 : y ∈ bitsAux f ((m + 1) ^^^ pyLowBit (m + 1)) :=
            List.mem_of_mem_head? hy
          obtain ⟨i, rfl, hti⟩ := (ihm y).1 hy2
          have hij : i ≠ j := by
            intro hij
            rw [hbit i, if_pos hij] at hti
            exact Bool.false_ne_true hti
          have hji : j < i := by
            rcases Nat.lt_trichotomy i j with hlt2 | heq | hgt
            · rw [hbit i, if_neg hij, hj3 i hlt2] at hti
              exact absurd hti Bool.false_ne_true
            · exact absurd heq hij
            · exact hgt
          rw [hj1]
          exact Nat.pow_lt_pow_right (by omega) hji

theorem bits_mem (n : Nat) :
    ∀ b, b ∈ bits n ↔ ∃ j, b = 2 ^ j ∧ n.testBit j = true :=
  (bitsAux_sound n n le_rfl).1

theorem bits_chain (n : Nat) : List.Chain' (· < ·) (bits n) :=
  (bitsAux_sound n n le_rfl).2

theorem pyJoin_cons₂ (sep s r : String) (rest : List String) :
    pyJoin sep (s :: r :: rest) = s ++ sep ++ pyJoin sep (r :: rest) := rfl

theorem mem_infix_pyJoin (sep x : String) :
    ∀ xs : List String, x ∈ xs → x.data <:+: (pyJoin sep xs).data := by
  intro xs
  induction xs with
  | nil => intro h; exact absurd h (List.not_mem_nil x)
  | cons s rest ih =>
    intro h
    cases rest with
    | nil =>
      rw [List.mem_singleton] at h
      subst h
      exact List.infix_rfl
    | cons r rest2 =>
      rw [pyJoin_cons₂, String.data_append, String.data_append]
      rcases List.mem_cons.1 h with rfl | h2
      · exact ((x.data.prefix_append sep.data).trans
          ((x.data ++ sep.data).prefix_append (pyJoin sep (r :: rest2)).data)).isInfix
      · exact (ih h2).trans
          ((s.data ++ sep.data).suffix_append (pyJoin sep (r :: rest2)).data).isInfix

/-- C7: for every error code with at least two set bits whose composite
translation fails, the decoder extracts the set bits in ascending
bit-value order (repeatedly isolating the least significant set bit via
`mask = ~n + 1; bit = n & mask; n ^= bit`), translates each bit
independently, and joins the per-bit messages with newlines, one entry
per set bit (the extracted list holds exactly the set bits, ascending and
without duplicates). -/
theorem claim_C7_composite_decomposition (gett : Nat → Nat × String) (n : Nat)
    (hcomp : (gett n).1 ≠ PCAN_ERROR_OK)
    (_htwo : ∃ i j : Nat, i ≠ j ∧ n.testBit i = true ∧ n.testBit j = true) :
    getFormattedError gett n =
      pyJoin ("\n") ((bits n).map (fun b =>
        if (gett b).1 ≠ PCAN_ERROR_OK then placeholderText n else (gett b).2)) ∧
    List.Chain' (· < ·) (bits n) ∧
    (∀ b, b ∈ bits n ↔ ∃ j, b = 2 ^ j ∧ n.testBit j = true) ∧
    (bits n).Nodup := by
  refine ⟨?_, bits_chain n, bits_mem n, ?_⟩
  · simp only [getFormattedError, if_pos hcomp]
  · exact ((List.chain'_iff_pairwise).1 (bits_chain n)).nodup

/-- Witness for C7 at the composite code 3 (bits 1 and 2 set) under a
translation capability that fails on every code. -/
theorem claim_C7_witness :
    ((gettFail 3).1 ≠ PCAN_ERROR_OK ∧
      (0 : Nat) ≠ 1 ∧ (3 : Nat).testBit 0 = true ∧ (3 : Nat).testBit 1 = true) ∧
    getFormattedError gettFail 3 =
      pyJoin ("\n") ((bits 3).map (fun b =>
        if (gettFail b).1 ≠ PCAN_ERROR_OK then placeholderText 3 else (gettFail b).2)) ∧
    List.Chain' (· < ·) (bits 3) ∧
    (∀ b, b ∈ bits 3 ↔ ∃ j, b = 2 ^ j ∧ (3 : Nat).testBit j = true) ∧
    (bits 3).Nodup :=
  ⟨⟨by decide, by decide, by decide, by decide⟩,
    claim_C7_composite_decomposition gettFail 3 (by decide)
      ⟨0, 1, by decide, by decide, by decide⟩⟩

set_option maxRecDepth 20000 in
/-- Counterexample to C3 as stated: for the composite code 3, whose
composite translation and per-bit translations all fail, the decoded
string nowhere contains the hexadecimal of the individual bit 1 — the
placeholder interpolates the composite code 3 instead. -/
theorem claim_C3_counterexample :
    (gettFail 3).1 ≠ PCAN_ERROR_OK ∧ (1 : Nat) ∈ bits 3 ∧
    (gettFail 1).1 ≠ PCAN_ERROR_OK ∧
    ¬ (toHexUpper 1).data <:+: (getFormattedError gettFail 3).data := by
  refine ⟨by decide, by decide, by decide, by decide⟩

/-- C3 (amended): for every error code whose composite translation fails,
and for every set bit of that code whose per-bit translation also fails,
the decoded error string contains for that bit a placeholder line that
includes the composite code's value in hexadecimal (not the individual
bit's), and decode never raises for an unrecognized bit (the decoder is
total). -/
theorem claim_C3_amended_placeholder (gett : Nat → Nat × String) (error b : Nat)
    (hcomp : (gett error).1 ≠ PCAN_ERROR_OK) (hb : b ∈ bits error)
    (hbit : (gett b).1 ≠ PCAN_ERROR_OK) :
    (placeholderText error).data <:+: (getFormattedError gett error).data ∧
    (toHexUpper error).data <:+: (getFormattedError gett error).data := by
  have h1 : getFormattedError gett error =
      pyJoin ("\n") ((bits error).map (fun b =>
        if (gett b).1 ≠ PCAN_ERROR_OK then placeholderText error else (gett b).2)) := by
    simp only [getFormattedError, if_pos hcomp]
  have hmem : placeholderText error ∈ (bits error).map (fun b =>
      if (gett b).1 ≠ PCAN_ERROR_OK then placeholderText error else (gett b).2) :=
    List.mem_map.2 ⟨b, hb, by rw [if_pos hbit]⟩
  have h2 := mem_infix_pyJoin ("\n") (placeholderText error) _ hmem
  rw [h1]
  refine ⟨h2, ?_⟩
  have h3 : (toHexUpper error).data <:+: (placeholderText error).data := by
    rw [placeholderText, String.data_append, String.data_append]
    exact (List.IsSuffix.isInfix (List.suffix_append
        ("An error occurred. Error-code\x27s text (").data (toHexUpper error).data)).trans
      (List.IsPrefix.isInfix (List.prefix_append
        (("An error occurred. Error-code\x27s text (").data ++ (toHexUpper error).data)
        ("h) couldn\x27t be retrieved").data))
  exact h3.trans h2

/-- Witness for the amended C3 at the composite code 3 under a
translation capability that fails on every code. -/
theorem claim_C3_amended_witness :
    ((gettFail 3).1 ≠ PCAN_ERROR_OK ∧ (2 : Nat) ∈ bits 3 ∧
      (gettFail 2).1 ≠ PCAN_ERROR_OK) ∧
    (placeholderText 3).data <:+: (getFormattedError gettFail 3).data ∧
    (toHexUpper 3).data <:+: (getFormattedError gettFail 3).data :=
  ⟨⟨by decide, by decide, by decide⟩,
    claim_C3_amended_placeholder gettFail 3 2 (by decide) (by decide) (by decide)⟩

/-! ### Receive loop claims -/

/-- C4: for every receive attempt whose device read returns a status other
than queue-empty with the bus-light or bus-heavy bit set, the loop logs
the decoded diagnostic and returns the empty "no frame" result without
raising; any other non-success, non-queue-empty status raises the device
error. -/
theorem claim_C4_bus_warning_statuses (gett : Nat → Nat × String) (epoch : ℚ)
    (reads : Nat → ReadRes) (rem k : Nat)
    (hne : (reads k).status ≠ PCAN_ERROR_QRCVEMPTY) :
    ((reads k).status &&& (PCAN_ERROR_BUSLIGHT ||| PCAN_ERROR_BUSHEAVY) ≠ 0 →
      recvPollAux gett epoch reads rem k =
        (.noFrame, [getFormattedError gett (reads k).status])) ∧
    ((reads k).status &&& (PCAN_ERROR_BUSLIGHT ||| PCAN_ERROR_BUSHEAVY) = 0 →
      (reads k).status ≠ PCAN_ERROR_OK →
      recvPollAux gett epoch reads rem k =
        (.raised (getFormattedError gett (reads k).status), [])) := by
  constructor
  · intro hbusy
    cases rem <;> simp [recvPollAux, recvReadStep, hne, hbusy]
  · intro hclear hnok
    cases rem <;> simp [recvPollAux, recvReadStep, hne, hclear, hnok]

/-- Witness for C4: a read stream reporting bus-heavy on every read. -/
theorem claim_C4_witness :
    (readsBusHeavy 0).status ≠ PCAN_ERROR_QRCVEMPTY ∧
    (((readsBusHeavy 0).status &&& (PCAN_ERROR_BUSLIGHT ||| PCAN_ERROR_BUSHEAVY) ≠ 0 →
        recvPollAux gettFail 0 readsBusHeavy 5 0 =
          (.noFrame, [getFormattedError gettFail (readsBusHeavy 0).status])) ∧
      ((readsBusHeavy 0).status &&& (PCAN_ERROR_BUSLIGHT ||| PCAN_ERROR_BUSHEAVY) = 0 →
        (readsBusHeavy 0).status ≠ PCAN_ERROR_OK →
        recvPollAux gettFail 0 readsBusHeavy 5 0 =
          (.raised (getFormattedError gettFail (readsBusHeavy 0).status), []))) :=
  ⟨by decide, claim_C4_bus_warning_statuses gettFail 0 readsBusHeavy 5 0 (by decide)⟩

theorem recvPoll_all_empty (gett : Nat → Nat × String) (epoch : ℚ)
    (reads : Nat → ReadRes) :
    ∀ rem k, (∀ i, k ≤ i → i ≤ k + rem → (reads i).status = PCAN_ERROR_QRCVEMPTY) →
      recvPollAux gett epoch reads rem k = (.noFrame, []) := by
  intro rem
  induction rem with
  | zero =>
    intro k h
    have hk := h k le_rfl (by omega)
    simp [recvPollAux, recvReadStep, hk]
  | succ r ihr =>
    intro k h
    have hk := h k le_rfl (by omega)
    have hrec := ihr (k + 1) (fun i h1 h2 => h i (by omega) (by omega))
    simp [recvPollAux, recvReadStep, hk, hrec]

theorem recvEvent_wait_expires (gett : Nat → Nat × String) (epoch : ℚ)
    (reads : Nat → ReadRes) (waits : Nat → Bool) :
    ∀ j fuel k, j < fuel →
      (∀ i, i ≤ j → (reads (k + i)).status = PCAN_ERROR_QRCVEMPTY) →
      (∀ i, i < j → waits (k + i) = true) →
      waits (k + j) = false →
      recvEventAux gett epoch reads waits fuel k = some (.noFrame, []) := by
  intro j
  induction j with
  | zero =>
    intro fuel k hf hre _hwa hwf
    cases fuel with
    | zero => omega
    | succ f =>
      have h0 : (reads k).status = PCAN_ERROR_QRCVEMPTY := by
        have := hre 0 le_rfl
        simpa using this
      have hw0 : waits k = false := by simpa using hwf
      simp [recvEventAux, recvReadStep, h0, hw0]
  | succ j ihj =>
    intro fuel k hf hre hwa hwf
    cases fuel with
    | zero => omega
    | succ f =>
      have h0 : (reads k).status = PCAN_ERROR_QRCVEMPTY := by
        have := hre 0 (by omega)
        simpa using this
      have hw0 : waits k = true := by
        have := hwa 0 (by omega)
        simpa using this
      have hrec := ihj f (k + 1) (by omega)
        (fun i hi => by
          have := hre (i + 1) (by omega)
          have he : k + (i + 1) = k + 1 + i := by omega
          rwa [he] at this)
        (fun i hi => by
          have := hwa (i + 1) (by omega)
          have he : k + (i + 1) = k + 1 + i := by omega
          rwa [he] at this)
        (by
          have he : k + (j + 1) = k + 1 + j := by omega
          rwa [he] at hwf)
      simp [recvEventAux, recvReadStep, h0, hw0, hrec]

/-- C5: for every receive with a finite timeout under either wait
strategy, if every device read until the deadline reports queue-empty
(poll mode: sleeping 1 ms between re-checks until the precomputed
deadline; event mode: a wait that expires or fails), the loop returns the
non-error empty "no frame, no more data" result and raises nothing. -/
theorem claim_C5_all_empty_no_frame (gett : Nat → Nat × String) (epoch : ℚ)
    (reads : Nat → ReadRes) (waits : Nat → Bool) (deadline j fuel : Nat)
    (hpoll : ∀ i, i ≤ deadline → (reads i).status = PCAN_ERROR_QRCVEMPTY)
    (hev : ∀ i, i ≤ j → (reads i).status = PCAN_ERROR_QRCVEMPTY)
    (hwa : ∀ i, i < j → waits i = true)
    (hwf : waits j = false) (hfuel : j < fuel) :
    recvPoll gett epoch reads deadline = (.noFrame, []) ∧
    recvEventAux gett epoch reads waits fuel 0 = some (.noFrame, []) := by
  constructor
  · exact recvPoll_all_empty gett epoch reads deadline 0
      (fun i h1 h2 => hpoll i (by omega))
  · exact recvEvent_wait_expires gett epoch reads waits j fuel 0 hfuel
      (fun i hi => by simpa using hev i hi) (fun i hi => by simpa using hwa i hi)
      (by simpa using hwf)

/-- Witness for C5: an always-empty read stream, a first wait that
expires. -/
theorem claim_C5_witness :
    ((∀ i, i ≤ 3 → (readsEmpty i).status = PCAN_ERROR_QRCVEMPTY) ∧
      waitsExpire 0 = false ∧ (0 : Nat) < 2) ∧
    recvPoll gettFail 0 readsEmpty 3 = (.noFrame, []) ∧
    recvEventAux gettFail 0 readsEmpty waitsExpire 2 0 = some (.noFrame, []) :=
  ⟨⟨fun _ _ => rfl, rfl, by omega⟩,
    claim_C5_all_empty_no_frame gettFail 0 readsEmpty waitsExpire 3 0 2
      (fun i _ => rfl) (fun i _ => rfl) (fun i hi => absurd hi (by omega))
      rfl (by omega)⟩

/-- C9: for every successfully decoded classic-mode frame, the payload
length equals the wire LEN field directly, the payload is the first LEN
bytes of the buffer, and the timestamp equals the boot-epoch offset plus
(microseconds + 1000 × milliseconds + 2^32 × 1000 × millisecond-overflow)
divided by 1,000,000. -/
theorem claim_C9_classic_len_timestamp (gett : Nat → Nat × String) (epoch : ℚ)
    (reads : Nat → ReadRes) (rem k : Nat)
    (hok : (reads k).status = PCAN_ERROR_OK) :
    recvPollAux gett epoch reads rem k =
      (.frame (decodeClassic epoch (reads k).msg (reads k).ts), []) ∧
    (decodeClassic epoch (reads k).msg (reads k).ts).dlc = (reads k).msg.LEN ∧
    (decodeClassic epoch (reads k).msg (reads k).ts).data =
      (reads k).msg.DATA.take (reads k).msg.LEN ∧
    (decodeClassic epoch (reads k).msg (reads k).ts).timestamp =
      epoch + (((reads k).ts.micros : ℚ) + 1000 * ((reads k).ts.millis : ℚ) +
        4294967296 * 1000 * ((reads k).ts.millis_overflow : ℚ)) / 1000000 := by
  refine ⟨?_, rfl, rfl, ?_⟩
  · have h1 : (reads k).status ≠ PCAN_ERROR_QRCVEMPTY := by
      rw [hok]
      decide
    have h2 : (reads k).status &&& (PCAN_ERROR_BUSLIGHT ||| PCAN_ERROR_BUSHEAVY) = 0 := by
      rw [hok]
      decide
    cases rem <;>
      simp [recvPollAux, recvReadStep, h1, h2, hok, PCAN_ERROR_OK,
        PCAN_ERROR_QRCVEMPTY, PCAN_ERROR_BUSLIGHT, PCAN_ERROR_BUSHEAVY]
  · show epoch + (((reads k).ts.micros : ℚ) + 1000 * ((reads k).ts.millis : ℚ) +
        0x100000000 * 1000 * ((reads k).ts.millis_overflow : ℚ)) / (1000 * 1000) = _
    norm_num

/-- Witness for C9: a read stream delivering the example frame. -/
theorem claim_C9_witness :
    (readsFrame 0).status = PCAN_ERROR_OK ∧
    (recvPollAux gettFail 0 readsFrame 5 0 =
        (.frame (decodeClassic 0 (readsFrame 0).msg (readsFrame 0).ts), []) ∧
      (decodeClassic 0 (readsFrame 0).msg (readsFrame 0).ts).dlc = (readsFrame 0).msg.LEN ∧
      (decodeClassic 0 (readsFrame 0).msg (readsFrame 0).ts).data =
        (readsFrame 0).msg.DATA.take (readsFrame 0).msg.LEN ∧
      (decodeClassic 0 (readsFrame 0).msg (readsFrame 0).ts).timestamp =
        0 + (((readsFrame 0).ts.micros : ℚ) + 1000 * ((readsFrame 0).ts.millis : ℚ) +
          4294967296 * 1000 * ((readsFrame 0).ts.millis_overflow : ℚ)) / 1000000) :=
  ⟨rfl, claim_C9_classic_len_timestamp gettFail 0 readsFrame 5 0 rfl⟩

/-! ### Send claim -/

/-- C1 (at the failing input): a classic-mode send of a remote frame
reaches `CANMsg.MSGTYPE = msgType.value | PCAN_MESSAGE_RTR.value` with
`msgType` a plain int, so it raises `AttributeError` instead of issuing
the write — even though the type mask built at the top of `send` already
carries the RTR bit OR'd onto the standard base type. -/
theorem claim_C1_remote_send_attribute_error :
    sendClassic remoteFrameEx = .error (.attributeError attrErrText) ∧
    sendMsgType remoteFrameEx = (PCAN_MESSAGE_STANDARD ||| PCAN_MESSAGE_RTR) :=
  ⟨rfl, by decide⟩

/-! ### Constructor claims -/

theorem setRecvEvent_not_mem_stateSetter (s : BusState) :
    Effect.setRecvEvent ∉ (stateSetter s).2 := by
  rw [stateSetter]
  split
  · simp
  · split <;> simp

theorem stateSetter_effects (s : BusState) :
    (stateSetter s).2 = [] ∨ ∃ b, (stateSetter s).2 = [Effect.setListenOnly b] := by
  rw [stateSetter]
  split
  · exact Or.inr ⟨false, rfl⟩
  · split
    · exact Or.inr ⟨true, rfl⟩
    · exact Or.inl rfl

theorem afterInit_mem_iff (hasEvents : Bool) (dev : DevResponses) (es : List Effect)
    (st st' : BusState) (hok : (afterInit hasEvents dev es st).2 = Except.ok st')
    (hes : Effect.setRecvEvent ∉ es) :
    ((Effect.setRecvEvent ∈ (afterInit hasEvents dev es st).1) ↔ hasEvents = true) := by
  rw [afterInit] at hok ⊢
  split at hok
  · simp at hok
  · split at hok
    · split at hok
      · simp at hok
      · simp_all
    · simp_all

theorem pcanInit_shape (hasEvents : Bool) (dev : DevResponses) (a : PcanInitArgs) :
    (∃ es, Effect.setRecvEvent ∉ es ∧
        pcanInit hasEvents dev a = afterInit hasEvents dev es a.state) ∨
    (pcanInit hasEvents dev a).2 = Except.error
        (.argumentError ("timing and data_timing arguments missing")) ∨
    pcanInit hasEvents dev a =
      ([], Except.error (.argumentError ("BusState must be Active or Passive"))) := by
  by_cases hv : a.state = BusState.active ∨ a.state = BusState.passive
  · by_cases hfd : a.fd = true
    · cases htm : a.timing with
      | some t =>
        cases hdtm : a.data_timing with
        | some d =>
          refine Or.inl ⟨(stateSetter a.state).2 ++
            [Effect.initFD (fdBitrateString (fdParamsExplicit t d))], ?_,
            by simp [pcanInit, hv, hfd, htm, hdtm]⟩
          intro h
          rcases List.mem_append.1 h with h1 | h1
          · exact setRecvEvent_not_mem_stateSetter a.state h1
          · simp at h1
        | none =>
          cases hlg : a.legacy with
          | some l =>
            refine Or.inl ⟨(stateSetter a.state).2 ++ [Effect.warnDeprecatedTiming,
              Effect.initFD (fdBitrateString (fdParamsLegacy l))], ?_,
              by simp [pcanInit, hv, hfd, htm, hdtm, hlg]⟩
            intro h
            rcases List.mem_append.1 h with h1 | h1
            · exact setRecvEvent_not_mem_stateSetter a.state h1
            · simp at h1
          | none =>
            exact Or.inr (Or.inl (by simp [pcanInit, hv, hfd, htm, hdtm, hlg]))
      | none =>
        cases hlg : a.legacy with
        | some l =>
          refine Or.inl ⟨(stateSetter a.state).2 ++ [Effect.warnDeprecatedTiming,
            Effect.initFD (fdBitrateString (fdParamsLegacy l))], ?_,
            by simp [pcanInit, hv, hfd, htm, hlg]⟩
          intro h
          rcases List.mem_append.1 h with h1 | h1
          · exact setRecvEvent_not_mem_stateSetter a.state h1
          · simp at h1
        | none =>
          exact Or.inr (Or.inl (by simp [pcanInit, hv, hfd, htm, hlg]))
    · refine Or.inl ⟨(stateSetter a.state).2 ++
        ((if (classicBitrate a.timing a.bitrate).2 = true
            then [Effect.warnUnknownBitrate] else []) ++
          [Effect.initBaud (classicBitrate a.timing a.bitrate).1]), ?_,
        by simp [pcanInit, hv, hfd]⟩
      intro h
      rcases List.mem_append.1 h with h1 | h1
      · exact setRecvEvent_not_mem_stateSetter a.state h1
      · rcases List.mem_append.1 h1 with h2 | h2
        · split at h2 <;> simp at h2
        · simp at h2
  · exact Or.inr (Or.inr (by simp [pcanInit, hv]))

/-- Counterexample to C2 as stated: a successful FD-mode open on an
event-capable platform does register the receive-event wait object. -/
theorem claim_C2_counterexample_fd_registers :
    argsFDTimed.fd = true ∧
    Effect.setRecvEvent ∈ (pcanInit true devOK argsFDTimed).1 ∧
    (pcanInit true devOK argsFDTimed).2 = Except.ok BusState.active := by
  refine ⟨rfl, ?_, rfl⟩
  simp [pcanInit, argsFDTimed, devOK, afterInit, stateSetter, PCAN_ERROR_OK]

/-- C2 (amended): registration of the receive-event wait object depends
only on platform event support, not on the fd flag: on every open that
returns successfully, the wait object has been registered if and only if
the platform supports events, in FD mode just as in classic mode. -/
theorem claim_C2_amended_registration (hasEvents : Bool) (dev : DevResponses)
    (a : PcanInitArgs) (st : BusState)
    (hok : (pcanInit hasEvents dev a).2 = Except.ok st) :
    ((Effect.setRecvEvent ∈ (pcanInit hasEvents dev a).1) ↔ hasEvents = true) := by
  rcases pcanInit_shape hasEvents dev a with ⟨es, hes, heq⟩ | h | h
  · rw [heq] at hok ⊢
    exact afterInit_mem_iff hasEvents dev es a.state st hok hes
  · rw [h] at hok
    simp at hok
  · rw [h] at hok
    simp at hok

/-- Witness for the amended C2: the successful FD open with events. -/
theorem claim_C2_amended_witness :
    (pcanInit true devOK argsFDTimed).2 = Except.ok BusState.active ∧
    ((Effect.setRecvEvent ∈ (pcanInit true devOK argsFDTimed).1) ↔ true = true) :=
  ⟨rfl, claim_C2_amended_registration true devOK argsFDTimed BusState.active rfl⟩

/-- C6: an FD open without both timing structures and without legacy
keyword timing parameters raises `ArgumentError` ("timing and data_timing
arguments missing") before any device initialization call. -/
theorem claim_C6_fd_timing_missing (hasEvents : Bool) (dev : DevResponses)
    (a : PcanInitArgs)
    (hstate : a.state = BusState.active ∨ a.state = BusState.passive)
    (hfd : a.fd = true) (hmiss : a.timing = none ∨ a.data_timing = none)
    (hleg : a.legacy = none) :
    (pcanInit hasEvents dev a).2 =
      Except.error (.argumentError ("timing and data_timing arguments missing")) ∧
    (∀ b, Effect.initBaud b ∉ (pcanInit hasEvents dev a).1) ∧
    (∀ s, Effect.initFD s ∉ (pcanInit hasEvents dev a).1) := by
  have htrace : pcanInit hasEvents dev a = ((stateSetter a.state).2,
      Except.error (.argumentError ("timing and data_timing arguments missing"))) := by
    cases htm : a.timing with
    | none => cases hdtm : a.data_timing <;> simp [pcanInit, hstate, hfd, htm, hleg]
    | some t =>
      cases hdtm : a.data_timing with
      | none => simp [pcanInit, hstate, hfd, htm, hdtm, hleg]
      | some d => rcases hmiss with hm | hm <;> simp_all
  refine ⟨by rw [htrace], ?_, ?_⟩
  · intro b hb
    rw [htrace] at hb
    rcases stateSetter_effects a.state with h | ⟨bb, h⟩ <;> rw [h] at hb <;> simp at hb
  · intro s hs
    rw [htrace] at hs
    rcases stateSetter_effects a.state with h | ⟨bb, h⟩ <;> rw [h] at hs <;> simp at hs

/-- Witness for C6: FD open with no timing at all. -/
theorem claim_C6_witness :
    ((argsFDBare.state = BusState.active ∨ argsFDBare.state = BusState.passive) ∧
      argsFDBare.fd = true ∧
      (argsFDBare.timing = none ∨ argsFDBare.data_timing = none) ∧
      argsFDBare.legacy = none) ∧
    (pcanInit false devOK argsFDBare).2 =
      Except.error (.argumentError ("timing and data_timing arguments missing")) ∧
    (∀ b, Effect.initBaud b ∉ (pcanInit false devOK argsFDBare).1) ∧
    (∀ s, Effect.initFD s ∉ (pcanInit false devOK argsFDBare).1) :=
  ⟨⟨Or.inl rfl, rfl, Or.inl rfl, rfl⟩,
    claim_C6_fd_timing_missing false devOK argsFDBare (Or.inl rfl) rfl (Or.inl rfl) rfl⟩

/-- C8: a classic open with no explicit timing uses the symbolic table
entry for the requested bitrate (500000 maps to the Baud-500K value); an
absent bitrate falls back to the 500 kbit/s value with a warning-level
diagnostic, and the open still completes successfully. -/
theorem claim_C8_classic_bitrate_table (hasEvents : Bool) (dev : DevResponses)
    (a : PcanInitArgs)
    (hstate : a.state = BusState.active ∨ a.state = BusState.passive)
    (hfd : a.fd = false) (ht : a.timing = none)
    (hdev : dev.initResult = PCAN_ERROR_OK) (hdev2 : dev.setEventResult = PCAN_ERROR_OK) :
    pcanBitrateObjs.lookup 500000 = some PCAN_BAUD_500K ∧
    (∀ b, pcanBitrateObjs.lookup a.bitrate = some b →
      Effect.initBaud b ∈ (pcanInit hasEvents dev a).1 ∧
      Effect.warnUnknownBitrate ∉ (pcanInit hasEvents dev a).1) ∧
    (pcanBitrateObjs.lookup a.bitrate = none →
      Effect.initBaud PCAN_BAUD_500K ∈ (pcanInit hasEvents dev a).1 ∧
      Effect.warnUnknownBitrate ∈ (pcanInit hasEvents dev a).1) ∧
    (pcanInit hasEvents dev a).2 = Except.ok a.state := by
  rcases hstate with hst | hst
  all_goals refine ⟨by decide, ?_, ?_, ?_⟩
  all_goals try
    (intro b hb
     have hcb : classicBitrate a.timing a.bitrate = (b, false) := by
       rw [ht, classicBitrate, hb]
     cases hasEvents <;>
       simp [pcanInit, hst, hfd, afterInit, hdev, hdev2, stateSetter, hcb,
         PCAN_ERROR_OK])
  all_goals try
    (intro hb
     have hcb : classicBitrate a.timing a.bitrate = (PCAN_BAUD_500K, true) := by
       rw [ht, classicBitrate, hb]
     cases hasEvents <;>
       simp [pcanInit, hst, hfd, afterInit, hdev, hdev2, stateSetter, hcb,
         PCAN_ERROR_OK])
  all_goals
    cases hasEvents <;>
      simp [pcanInit, hst, hfd, afterInit, hdev, hdev2, stateSetter,
        PCAN_ERROR_OK]

/-- Witness for C8: requesting the unknown bitrate 1 falls back to
Baud-500K with the warning, and the open completes. -/
theorem claim_C8_witness :
    ((argsUnknownRate.state = BusState.active ∨
        argsUnknownRate.state = BusState.passive) ∧
      argsUnknownRate.fd = false ∧ argsUnknownRate.timing = none ∧
      devOK.initResult = PCAN_ERROR_OK ∧ devOK.setEventResult = PCAN_ERROR_OK) ∧
    pcanBitrateObjs.lookup 500000 = some PCAN_BAUD_500K ∧
    (∀ b, pcanBitrateObjs.lookup argsUnknownRate.bitrate = some b →
      Effect.initBaud b ∈ (pcanInit false devOK argsUnknownRate).1 ∧
      Effect.warnUnknownBitrate ∉ (pcanInit false devOK argsUnknownRate).1) ∧
    (pcanBitrateObjs.lookup argsUnknownRate.bitrate = none →
      Effect.initBaud PCAN_BAUD_500K ∈ (pcanInit false devOK argsUnknownRate).1 ∧
      Effect.warnUnknownBitrate ∈ (pcanInit false devOK argsUnknownRate).1) ∧
    (pcanInit false devOK argsUnknownRate).2 = Except.ok argsUnknownRate.state :=
  ⟨⟨Or.inl rfl, rfl, rfl, rfl, rfl⟩,
    claim_C8_classic_bitrate_table false devOK argsUnknownRate (Or.inl rfl) rfl rfl
      rfl rfl⟩

/-- C10: assigning a state value that is neither Active nor Passive to the
state property silently updates the logical state field and pushes no
listen-only parameter to the device; the membership validation happens
only in the constructor, which rejects such values with `ArgumentError`. -/
theorem claim_C10_setter_no_validation (s : BusState)
    (h1 : s ≠ BusState.active) (h2 : s ≠ BusState.passive)
    (hasEvents : Bool) (dev : DevResponses) (a : PcanInitArgs)
    (hs : a.state = s) :
    stateSetter s = (s, []) ∧
    (pcanInit hasEvents dev a).2 =
      Except.error (.argumentError ("BusState must be Active or Passive")) := by
  constructor
  · rw [stateSetter, if_neg h1, if_neg h2]
  · have hv : ¬(a.state = BusState.active ∨ a.state = BusState.passive) := by
      rw [hs]
      rintro (h | h)
      · exact h1 h
      · exact h2 h
    rw [pcanInit, if_neg hv]

/-- Witness for C10: the `ERROR` member of the state enumeration. -/
theorem claim_C10_witness :
    (BusState.error ≠ BusState.active ∧ BusState.error ≠ BusState.passive ∧
      argsStateErr.state = BusState.error) ∧
    stateSetter BusState.error = (BusState.error, []) ∧
    (pcanInit false devOK argsStateErr).2 =
      Except.error (.argumentError ("BusState must be Active or Passive")) :=
  ⟨⟨by decide, by decide, rfl⟩,
    claim_C10_setter_no_validation BusState.error (by decide) (by decide) false devOK
      argsStateErr rfl⟩

end Pcan
